import Mathlib

/-!
Shallow embedding of the GPS trip-compliance and anomaly-detection engine
of the fleet application: the geometry primitives and route-compliance
evaluator from `server/route-compliance.ts`, and the unscheduled-stop
detector and planned-route interpolator from
`client/src/components/route-confrontation-map.tsx`.

JavaScript numbers are modelled as real numbers; `Math.atan2` is modelled
by `atan2` below (the standard two-argument arctangent), and `Math.round`
by `jsRound x = ⌊x + 1/2⌋`, which agrees with JavaScript's
round-half-toward-positive-infinity semantics on the reals.
-/

namespace FleetGeo

open Classical in
/-- Two-argument arctangent, the mathematical function computed by
JavaScript's `Math.atan2(y, x)` (angle of the point `(x, y)` in `(-π, π]`,
with `atan2 0 0 = 0`). -/
noncomputable def atan2 (y x : ℝ) : ℝ :=
  if 0 < x then Real.arctan (y / x)
  else if x < 0 then
    (if 0 ≤ y then Real.arctan (y / x) + Real.pi
     else Real.arctan (y / x) - Real.pi)
  else if 0 < y then Real.pi / 2
  else if y < 0 then -(Real.pi / 2)
  else 0

/-- JavaScript's `Math.round`: floor of `x + 1/2`. -/
noncomputable def jsRound (x : ℝ) : ℤ := ⌊x + 1 / 2⌋

/-- A latitude/longitude pair in degrees (`interface Coordinate` in
`server/route-compliance.ts`). -/
structure Coordinate where
  lat : ℝ
  lng : ℝ

/-- Degrees to radians (`toRadians` in `server/route-compliance.ts`). -/
noncomputable def toRadians (degrees : ℝ) : ℝ := degrees * (Real.pi / 180)

/-- Great-circle distance in meters (`haversineDistance` in
`server/route-compliance.ts`). -/
noncomputable def haversineDistance (coord1 coord2 : Coordinate) : ℝ :=
  let R : ℝ := 6371e3
  let lat1 := toRadians coord1.lat
  let lat2 := toRadians coord2.lat
  let deltaLat := toRadians (coord2.lat - coord1.lat)
  let deltaLng := toRadians (coord2.lng - coord1.lng)
  let a := Real.sin (deltaLat / 2) * Real.sin (deltaLat / 2) +
           Real.cos lat1 * Real.cos lat2 *
           (Real.sin (deltaLng / 2) * Real.sin (deltaLng / 2))
  let c := 2 * atan2 (Real.sqrt a) (Real.sqrt (1 - a))
  R * c

/-- Linear interpolation between two coordinates (`interpolateRoute` in
`server/route-compliance.ts`): coordinates at `t = i / numPoints` for
`i` in `0..numPoints` inclusive. The source's `numPoints` parameter
defaults to `10`; see `interpolateRouteDefault`. -/
noncomputable def interpolateRoute (start endP : Coordinate) (numPoints : ℕ) : List Coordinate :=
  (List.range (numPoints + 1)).map (fun (i : ℕ) =>
    let t : ℝ := (i : ℝ) / (numPoints : ℝ)
    { lat := start.lat + t * (endP.lat - start.lat),
      lng := start.lng + t * (endP.lng - start.lng) })

/-- The default value of `interpolateRoute`'s `numPoints` parameter in
`server/route-compliance.ts` (`numPoints: number = 10`). -/
def interpolateRouteDefaultNumPoints : ℕ := 10

/-- Calling `interpolateRoute` without an explicit `numPoints`, which the
source fills with its default of `10`. -/
noncomputable def interpolateRouteDefault (start endP : Coordinate) : List Coordinate :=
  interpolateRoute start endP interpolateRouteDefaultNumPoints

/-- The clamped projection parameter `t` computed inside
`pointToLineSegmentDistance` in `server/route-compliance.ts`:
`Math.max(0, Math.min(1, ...))`. -/
noncomputable def segmentParam (point lineStart lineEnd : Coordinate) : ℝ :=
  let lineLat := lineEnd.lat - lineStart.lat
  let lineLng := lineEnd.lng - lineStart.lng
  let lineLength := Real.sqrt (lineLat * lineLat + lineLng * lineLng)
  max 0 (min 1
    (((point.lat - lineStart.lat) * lineLat + (point.lng - lineStart.lng) * lineLng) /
      (lineLength * lineLength)))

open Classical in
/-- Distance from a point to a line segment (`pointToLineSegmentDistance`
in `server/route-compliance.ts`): haversine distance from the point to its
clamped projection onto the segment, falling back to the distance to
`lineStart` when the segment has zero length. -/
noncomputable def pointToLineSegmentDistance (point lineStart lineEnd : Coordinate) : ℝ :=
  let lineLat := lineEnd.lat - lineStart.lat
  let lineLng := lineEnd.lng - lineStart.lng
  let lineLength := Real.sqrt (lineLat * lineLat + lineLng * lineLng)
  if lineLength = 0 then
    haversineDistance point lineStart
  else
    let t := segmentParam point lineStart lineEnd
    let projection : Coordinate :=
      { lat := lineStart.lat + t * lineLat, lng := lineStart.lng + t * lineLng }
    haversineDistance point projection

/-- Distances from a point to each consecutive segment of a polyline: the
values the inner `for` loop of `calculateRouteCompliance` takes the
minimum of. -/
noncomputable def segmentDistances (p : Coordinate) : List Coordinate → List ℝ
  | a :: b :: rest => pointToLineSegmentDistance p a b :: segmentDistances p (b :: rest)
  | _ => []

/-- The per-point `minDistance` of `calculateRouteCompliance`: the minimum
over all consecutive segment pairs of the expected route. The JS loop
starts from `Infinity`; a polyline with fewer than two waypoints would
leave it there, but `calculateRouteCompliance` always passes a 21-waypoint
route, so that case is unreachable (modelled as `0`). -/
noncomputable def minDeviation (p : Coordinate) (route : List Coordinate) : ℝ :=
  match segmentDistances p route with
  | [] => 0
  | d :: ds => ds.foldl min d

/-- Result record of `calculateRouteCompliance`
(`{ compliancePercent; maxDeviation; averageDeviation }`). -/
structure ComplianceResult where
  compliancePercent : ℝ
  maxDeviation : ℤ
  averageDeviation : ℤ

open Classical in
/-- The route-compliance evaluator (`calculateRouteCompliance` in
`server/route-compliance.ts`). -/
noncomputable def calculateRouteCompliance (actualPath : List Coordinate)
    (expectedStart expectedEnd : Coordinate) (toleranceMeters : ℝ) : ComplianceResult :=
  if actualPath.isEmpty then ⟨100, 0, 0⟩
  else
    let expectedRoute := interpolateRoute expectedStart expectedEnd 20
    let minDistances := actualPath.map (fun p => minDeviation p expectedRoute)
    let compliantPoints := minDistances.countP (fun d => decide (d ≤ toleranceMeters))
    let totalDeviation := minDistances.sum
    let maxDeviation := minDistances.foldl max 0
    let compliancePercent := ((compliantPoints : ℝ) / (actualPath.length : ℝ)) * 100
    let averageDeviation := totalDeviation / (actualPath.length : ℝ)
    ⟨(jsRound (compliancePercent * 10) : ℝ) / 10, jsRound maxDeviation,
      jsRound averageDeviation⟩

/-- Calling `calculateRouteCompliance` without an explicit tolerance, which
the source fills with its default of `500` meters. -/
noncomputable def calculateRouteComplianceDefault (actualPath : List Coordinate)
    (expectedStart expectedEnd : Coordinate) : ComplianceResult :=
  calculateRouteCompliance actualPath expectedStart expectedEnd 500

/-- Haversine distance used by the route-confrontation map
(`calculateDistance` in `client/src/components/route-confrontation-map.tsx`),
taking the four coordinates as separate numbers. -/
noncomputable def calculateDistance (lat1 lng1 lat2 lng2 : ℝ) : ℝ :=
  let R : ℝ := 6371e3
  let rad := Real.pi / 180
  let dLat := (lat2 - lat1) * rad
  let dLng := (lng2 - lng1) * rad
  let a := Real.sin (dLat / 2) ^ 2 +
           Real.cos (lat1 * rad) * Real.cos (lat2 * rad) * Real.sin (dLng / 2) ^ 2
  R * 2 * atan2 (Real.sqrt a) (Real.sqrt (1 - a))

/-- A recorded GPS sample (the fields of `GpsRoutePoint` that
`detectUnscheduledStops` reads): latitude, longitude and the timestamp in
milliseconds since the epoch (the value of `new Date(p.timestamp).getTime()`). -/
structure GpsSample where
  latitude : ℝ
  longitude : ℝ
  timestamp : ℝ

/-- A detected stop (`interface UnscheduledStop` in
`client/src/components/route-confrontation-map.tsx`); `startTime` is the
epoch milliseconds of the run's first sample and `duration` the rounded
length of the run in minutes. -/
structure UnscheduledStop where
  latitude : ℝ
  longitude : ℝ
  startTime : ℝ
  duration : ℤ

/-- The `isAtDestination` test inside `detectUnscheduledStops`: the
JavaScript expression `destinationLat && destinationLng &&
calculateDistance(...) < 200`. An absent (`null`/`undefined`) coordinate
and the number `0` are both falsy, so either of them short-circuits the
check to a falsy value. -/
def isAtDestination (s : GpsSample) (destinationLat destinationLng : Option ℝ) : Prop :=
  match destinationLat, destinationLng with
  | some dlat, some dlng =>
      dlat ≠ 0 ∧ dlng ≠ 0 ∧ calculateDistance s.latitude s.longitude dlat dlng < 200
  | _, _ => False

/-- State of the single-pass stop-detection loop of
`detectUnscheduledStops`: accumulated stops, the current stationary run's
first sample (`stopStart`) and the samples of the run (`stopPoints`). -/
structure DetectState where
  stops : List UnscheduledStop
  stopStart : Option GpsSample
  stopPoints : List GpsSample

open Classical in
/-- Closing an open stationary run: the body of the two
`if (stopStart && stopPoints.length > 1)` blocks of
`detectUnscheduledStops`. A stop is emitted, with the run's first sample's
coordinates and timestamp, when the run's first-to-last duration reaches
the threshold and the run does not sit at the destination. -/
noncomputable def flushRun (dlat dlng : Option ℝ) (stm : ℝ)
    (stopStart : Option GpsSample) (stopPoints : List GpsSample)
    (stops : List UnscheduledStop) : List UnscheduledStop :=
  match stopStart with
  | none => stops
  | some s =>
    if 1 < stopPoints.length then
      let lastPoint := stopPoints.getLast?.getD s
      let duration := (lastPoint.timestamp - s.timestamp) / 60000
      if duration ≥ stm then
        if ¬ isAtDestination s dlat dlng then
          stops ++ [⟨s.latitude, s.longitude, s.timestamp, jsRound duration⟩]
        else stops
      else stops
    else stops

open Classical in
/-- The `for` loop of `detectUnscheduledStops`, walking consecutive sample
pairs `(prev, curr)`: a pair closer than the distance threshold extends
(or opens) a stationary run, any other pair flushes the open run. -/
noncomputable def detectGo (dlat dlng : Option ℝ) (stm dtm : ℝ) :
    GpsSample → List GpsSample → DetectState → DetectState
  | _, [], st => st
  | prev, curr :: rest, st =>
    let d := calculateDistance prev.latitude prev.longitude curr.latitude curr.longitude
    if d < dtm then
      match st.stopStart with
      | none => detectGo dlat dlng stm dtm curr rest
          { st with stopStart := some prev, stopPoints := [prev, curr] }
      | some _ => detectGo dlat dlng stm dtm curr rest
          { st with stopPoints := st.stopPoints ++ [curr] }
    else
      detectGo dlat dlng stm dtm curr rest
        { stops := flushRun dlat dlng stm st.stopStart st.stopPoints st.stops,
          stopStart := none, stopPoints := [] }

/-- The unscheduled-stop detector (`detectUnscheduledStops` in
`client/src/components/route-confrontation-map.tsx`): single pass over the
track followed by a final flush of any run still open at the end. -/
noncomputable def detectUnscheduledStops (gpsPoints : List GpsSample)
    (destinationLat destinationLng : Option ℝ)
    (stopThresholdMinutes distanceThresholdMeters : ℝ) : List UnscheduledStop :=
  if gpsPoints.length < 2 then []
  else
    match gpsPoints with
    | [] => []
    | p :: rest =>
      let st := detectGo destinationLat destinationLng stopThresholdMinutes
        distanceThresholdMeters p rest ⟨[], none, []⟩
      flushRun destinationLat destinationLng stopThresholdMinutes
        st.stopStart st.stopPoints st.stops

/-- Calling `detectUnscheduledStops` without explicit thresholds, which the
source fills with its defaults of `10` minutes and `100` meters. -/
noncomputable def detectUnscheduledStopsDefault (gpsPoints : List GpsSample)
    (destinationLat destinationLng : Option ℝ) : List UnscheduledStop :=
  detectUnscheduledStops gpsPoints destinationLat destinationLng 10 100

/-- Client-side planned-route interpolator (`interpolatePlannedRoute` in
`client/src/components/route-confrontation-map.tsx`), producing
`[lat, lng]` pairs. -/
noncomputable def interpolatePlannedRoute (startLat startLng endLat endLng : ℝ)
    (numPoints : ℕ) : List (ℝ × ℝ) :=
  (List.range (numPoints + 1)).map (fun (i : ℕ) =>
    let t : ℝ := (i : ℝ) / (numPoints : ℝ)
    (startLat + t * (endLat - startLat), startLng + t * (endLng - startLng)))

/-- The default value of `interpolatePlannedRoute`'s `numPoints` parameter
in the client source (`numPoints: number = 20`). -/
def interpolatePlannedRouteDefaultNumPoints : ℕ := 20

/-- Calling `interpolatePlannedRoute` without an explicit `numPoints`,
which the client source fills with its default of `20` (this is how the
route-confrontation map calls it). -/
noncomputable def interpolatePlannedRouteDefault (startLat startLng endLat endLng : ℝ) :
    List (ℝ × ℝ) :=
  interpolatePlannedRoute startLat startLng endLat endLng
    interpolatePlannedRouteDefaultNumPoints

/-- A four-sample stationary track at a fixed location, sampled every five
minutes (timestamps in milliseconds): the 15-minute stationary run used by
the specification's stop-detection test cases. -/
def run4 (la ln : ℝ) : List GpsSample :=
  [⟨la, ln, 0⟩, ⟨la, ln, 300000⟩, ⟨la, ln, 600000⟩, ⟨la, ln, 900000⟩]

/-- The specification's boundary test track: three samples at one point
five minutes apart (first-to-last span exactly 10 minutes), followed by a
sample about one kilometre away, a jump that ends the stationary run.
Timestamps in milliseconds. -/
def jumpTrack : List GpsSample :=
  [⟨0, 0, 0⟩, ⟨0, 0, 300000⟩, ⟨0, 0, 600000⟩, ⟨0, 0.009, 900000⟩]

/-- The strictly-below-threshold variant of `jumpTrack`: three samples four
minutes apart (first-to-last span 8 minutes), followed by the same one
kilometre jump. -/
def shortTrack : List GpsSample :=
  [⟨0, 0, 0⟩, ⟨0, 0, 240000⟩, ⟨0, 0, 480000⟩, ⟨0, 0.009, 720000⟩]

/-! Theorems: general lemmas about the embedded functions, followed by the
statements settling the specification's testable properties. -/

theorem Coordinate.ext_iff' (a b : Coordinate) :
    a = b ↔ a.lat = b.lat ∧ a.lng = b.lng := by
  cases a; cases b; simp

theorem atan2_zero_one : atan2 0 1 = 0 := by
  unfold atan2
  rw [if_pos one_pos]
  simp [Real.arctan_zero]

theorem arctan_nonneg_of_nonneg {z : ℝ} (hz : 0 ≤ z) : 0 ≤ Real.arctan z := by
  have h := Real.arctan_strictMono.monotone hz
  rwa [Real.arctan_zero] at h

theorem atan2_nonneg {y : ℝ} (x : ℝ) (hy : 0 ≤ y) : 0 ≤ atan2 y x := by
  unfold atan2
  by_cases hx : 0 < x
  · rw [if_pos hx]
    exact arctan_nonneg_of_nonneg (div_nonneg hy hx.le)
  · rw [if_neg hx]
    by_cases hx' : x < 0
    · rw [if_pos hx', if_pos hy]
      have h1 : -(Real.pi / 2) < Real.arctan (y / x) := Real.neg_pi_div_two_lt_arctan _
      have h2 : 0 < Real.pi := Real.pi_pos
      linarith
    · rw [if_neg hx']
      by_cases hy' : 0 < y
      · rw [if_pos hy']
        have := Real.pi_pos
        linarith
      · rw [if_neg hy', if_neg (by linarith : ¬ y < 0)]

theorem jsRound_intCast (n : ℤ) : jsRound (n : ℝ) = n := by
  unfold jsRound
  rw [Int.floor_int_add]
  norm_num

theorem jsRound_zero : jsRound 0 = 0 := by
  simpa using jsRound_intCast 0

theorem jsRound_natCast (n : ℕ) : jsRound (n : ℝ) = n := by
  have h := jsRound_intCast (n : ℤ)
  rw [Int.cast_natCast] at h
  exact h

theorem haversineDistance_self (a : Coordinate) : haversineDistance a a = 0 := by
  have h0 : toRadians 0 = 0 := by unfold toRadians; ring
  simp only [haversineDistance, sub_self, h0, zero_div, Real.sin_zero, mul_zero,
    zero_mul, zero_add, add_zero, Real.sqrt_zero, sub_zero, Real.sqrt_one,
    atan2_zero_one]

theorem haversineDistance_comm (a b : Coordinate) :
    haversineDistance a b = haversineDistance b a := by
  unfold haversineDistance
  have h1 : toRadians (a.lat - b.lat) = -toRadians (b.lat - a.lat) := by
    unfold toRadians; ring
  have h2 : toRadians (a.lng - b.lng) = -toRadians (b.lng - a.lng) := by
    unfold toRadians; ring
  rw [h1, h2]
  simp only [neg_div, Real.sin_neg]
  ring_nf

theorem two_atan2_sqrt_nonneg (a b : ℝ) :
    0 ≤ 2 * atan2 (Real.sqrt a) (Real.sqrt b) := by
  have h := atan2_nonneg (Real.sqrt b) (Real.sqrt_nonneg a)
  linarith

theorem haversineDistance_nonneg (a b : Coordinate) :
    0 ≤ haversineDistance a b := by
  simp only [haversineDistance]
  exact mul_nonneg (by norm_num) (two_atan2_sqrt_nonneg _ _)

theorem interpolateRoute_length (start endP : Coordinate) (numPoints : ℕ) :
    (interpolateRoute start endP numPoints).length = numPoints + 1 := by
  simp [interpolateRoute]

theorem interpolateRoute_head (start endP : Coordinate) (numPoints : ℕ) :
    (interpolateRoute start endP numPoints).head? = some start := by
  unfold interpolateRoute
  rw [List.range_succ_eq_map]
  simp only [List.map_cons, List.head?_cons, Nat.cast_zero, zero_div, zero_mul, add_zero]

theorem interpolateRoute_getLast (start endP : Coordinate) (numPoints : ℕ)
    (h : 1 ≤ numPoints) :
    (interpolateRoute start endP numPoints).getLast? = some endP := by
  unfold interpolateRoute
  rw [List.range_succ, List.map_append]
  simp only [List.map_cons, List.map_nil, List.getLast?_concat]
  have hn : (numPoints : ℝ) ≠ 0 := Nat.cast_ne_zero.mpr (by omega)
  have ht : (numPoints : ℝ) / (numPoints : ℝ) = 1 := div_self hn
  simp only [ht, one_mul]
  congr 1
  cases endP
  simp

theorem pointToLineSegmentDistance_nonneg (p a b : Coordinate) :
    0 ≤ pointToLineSegmentDistance p a b := by
  simp only [pointToLineSegmentDistance]
  by_cases h : Real.sqrt ((b.lat - a.lat) * (b.lat - a.lat) +
      (b.lng - a.lng) * (b.lng - a.lng)) = 0
  · rw [if_pos h]; exact haversineDistance_nonneg _ _
  · rw [if_neg h]; exact haversineDistance_nonneg _ _

theorem pointToLineSegmentDistance_self_start (a b : Coordinate) :
    pointToLineSegmentDistance a a b = 0 := by
  simp only [pointToLineSegmentDistance, segmentParam]
  by_cases h : Real.sqrt ((b.lat - a.lat) * (b.lat - a.lat) +
      (b.lng - a.lng) * (b.lng - a.lng)) = 0
  · rw [if_pos h]; exact haversineDistance_self a
  · rw [if_neg h]
    have h1 : min (1:ℝ) 0 = 0 := min_eq_right zero_le_one
    simp only [sub_self, zero_mul, zero_add, add_zero, zero_div, h1, max_self]
    exact haversineDistance_self a

theorem pointToLineSegmentDistance_self_end (a b : Coordinate) :
    pointToLineSegmentDistance b a b = 0 := by
  have hq0 : (0:ℝ) ≤ (b.lat - a.lat) * (b.lat - a.lat) + (b.lng - a.lng) * (b.lng - a.lng) :=
    add_nonneg (mul_self_nonneg _) (mul_self_nonneg _)
  simp only [pointToLineSegmentDistance, segmentParam]
  by_cases h : Real.sqrt ((b.lat - a.lat) * (b.lat - a.lat) +
      (b.lng - a.lng) * (b.lng - a.lng)) = 0
  · rw [if_pos h]
    have hq := (Real.sqrt_eq_zero hq0).mp h
    have h1 := (add_eq_zero_iff_of_nonneg (mul_self_nonneg _) (mul_self_nonneg _)).mp hq
    have hlat : b.lat = a.lat := sub_eq_zero.mp (mul_self_eq_zero.mp h1.1)
    have hlng : b.lng = a.lng := sub_eq_zero.mp (mul_self_eq_zero.mp h1.2)
    have hba : b = a := by
      rw [Coordinate.ext_iff']; exact ⟨hlat, hlng⟩
    rw [hba]; exact haversineDistance_self a
  · rw [if_neg h]
    have hqne : (b.lat - a.lat) * (b.lat - a.lat) + (b.lng - a.lng) * (b.lng - a.lng) ≠ 0 := by
      intro h0; exact h (by rw [h0, Real.sqrt_zero])
    have hss : Real.sqrt ((b.lat - a.lat) * (b.lat - a.lat) + (b.lng - a.lng) * (b.lng - a.lng)) *
        Real.sqrt ((b.lat - a.lat) * (b.lat - a.lat) + (b.lng - a.lng) * (b.lng - a.lng)) =
        (b.lat - a.lat) * (b.lat - a.lat) + (b.lng - a.lng) * (b.lng - a.lng) :=
      Real.mul_self_sqrt hq0
    have ht : ((b.lat - a.lat) * (b.lat - a.lat) + (b.lng - a.lng) * (b.lng - a.lng)) /
        (Real.sqrt ((b.lat - a.lat) * (b.lat - a.lat) + (b.lng - a.lng) * (b.lng - a.lng)) *
         Real.sqrt ((b.lat - a.lat) * (b.lat - a.lat) + (b.lng - a.lng) * (b.lng - a.lng))) = 1 := by
      rw [hss]; exact div_self hqne
    rw [ht, min_self, max_eq_right zero_le_one]
    have hplat : a.lat + 1 * (b.lat - a.lat) = b.lat := by ring
    have hplng : a.lng + 1 * (b.lng - a.lng) = b.lng := by ring
    rw [hplat, hplng]
    exact haversineDistance_self b

theorem segmentDistances_nonneg (p : Coordinate) :
    ∀ (route : List Coordinate), ∀ x ∈ segmentDistances p route, 0 ≤ x := by
  intro route
  induction route with
  | nil => simp [segmentDistances]
  | cons a rest ih =>
    cases rest with
    | nil => simp [segmentDistances]
    | cons b rest' =>
      intro x hx
      rw [segmentDistances] at hx
      rcases List.mem_cons.mp hx with h | h
      · subst h; exact pointToLineSegmentDistance_nonneg p a b
      · exact ih x h

theorem zero_mem_segmentDistances (p : Coordinate) :
    ∀ (route : List Coordinate), p ∈ route → 2 ≤ route.length →
      (0:ℝ) ∈ segmentDistances p route := by
  intro route
  induction route with
  | nil => intro hmem _; simp at hmem
  | cons a rest ih =>
    intro hmem hlen
    cases rest with
    | nil => simp at hlen
    | cons b rest' =>
      rw [segmentDistances]
      rcases List.mem_cons.mp hmem with h | h
      · subst h
        exact List.mem_cons.mpr (Or.inl (pointToLineSegmentDistance_self_start p b).symm)
      · cases rest' with
        | nil =>
          have hpb : p = b := by simpa using h
          subst hpb
          exact List.mem_cons.mpr (Or.inl (pointToLineSegmentDistance_self_end a p).symm)
        | cons c rest'' =>
          exact List.mem_cons.mpr (Or.inr (ih h (by simp)))

theorem foldl_min_nonneg {l : List ℝ} :
    ∀ {d : ℝ}, 0 ≤ d → (∀ x ∈ l, 0 ≤ x) → 0 ≤ l.foldl min d := by
  induction l with
  | nil => intro d hd _; simpa using hd
  | cons x xs ih =>
    intro d hd hl
    rw [List.foldl_cons]
    exact ih (le_min hd (hl x (List.mem_cons_self x xs)))
      (fun y hy => hl y (List.mem_cons_of_mem x hy))

theorem foldl_min_eq_zero {l : List ℝ} :
    ∀ {d : ℝ}, 0 ≤ d → (∀ x ∈ l, 0 ≤ x) → (d = 0 ∨ (0:ℝ) ∈ l) →
      l.foldl min d = 0 := by
  induction l with
  | nil =>
    intro d _ _ h0
    simpa using h0
  | cons x xs ih =>
    intro d hd hl h0
    rw [List.foldl_cons]
    have hx : 0 ≤ x := hl x (List.mem_cons_self x xs)
    refine ih (le_min hd hx) (fun y hy => hl y (List.mem_cons_of_mem x hy)) ?_
    rcases h0 with h | h
    · subst h; exact Or.inl (min_eq_left hx)
    · rcases List.mem_cons.mp h with h | h
      · exact Or.inl (by rw [← h, min_eq_right hd])
      · exact Or.inr h

theorem foldl_max_zero {l : List ℝ} (h : ∀ x ∈ l, x = 0) : l.foldl max 0 = 0 := by
  induction l with
  | nil => simp
  | cons x xs ih =>
    rw [List.foldl_cons, h x (List.mem_cons_self x xs), max_self]
    exact ih (fun y hy => h y (List.mem_cons_of_mem x hy))

theorem minDeviation_nonneg (p : Coordinate) (route : List Coordinate) :
    0 ≤ minDeviation p route := by
  unfold minDeviation
  cases hseg : segmentDistances p route with
  | nil => exact le_refl 0
  | cons d ds =>
    have hall := segmentDistances_nonneg p route
    rw [hseg] at hall
    exact foldl_min_nonneg (hall d (List.mem_cons_self d ds))
      (fun y hy => hall y (List.mem_cons_of_mem d hy))

theorem minDeviation_eq_zero {p : Coordinate} {route : List Coordinate}
    (hmem : p ∈ route) (hlen : 2 ≤ route.length) :
    minDeviation p route = 0 := by
  unfold minDeviation
  cases hseg : segmentDistances p route with
  | nil => rfl
  | cons d ds =>
    have hall := segmentDistances_nonneg p route
    have hz := zero_mem_segmentDistances p route hmem hlen
    rw [hseg] at hall hz
    refine foldl_min_eq_zero (hall d (List.mem_cons_self d ds))
      (fun y hy => hall y (List.mem_cons_of_mem d hy)) ?_
    rcases List.mem_cons.mp hz with h | h
    · exact Or.inl h.symm
    · exact Or.inr h

theorem calculateRouteCompliance_nil (s e : Coordinate) (tol : ℝ) :
    calculateRouteCompliance [] s e tol = ⟨100, 0, 0⟩ := rfl

open Classical in
theorem calculateRouteCompliance_eq (actualPath : List Coordinate) (s e : Coordinate)
    (tol : ℝ) (h : actualPath ≠ []) :
    calculateRouteCompliance actualPath s e tol =
      ⟨(jsRound ((((actualPath.map (fun p =>
            minDeviation p (interpolateRoute s e 20))).countP
              (fun d => decide (d ≤ tol)) : ℝ) /
          (actualPath.length : ℝ) * 100) * 10) : ℝ) / 10,
       jsRound ((actualPath.map (fun p =>
            minDeviation p (interpolateRoute s e 20))).foldl max 0),
       jsRound ((actualPath.map (fun p =>
            minDeviation p (interpolateRoute s e 20))).sum /
          (actualPath.length : ℝ))⟩ := by
  unfold calculateRouteCompliance
  rw [if_neg (by simp [h])]

/-- C3: if `actualPath` is exactly the 21-waypoint planned route built from
`pickup` and `delivery` with `numPoints = 20`, then
`calculateRouteCompliance` at its default 500 m tolerance returns
`compliancePercent = 100`, `maxDeviation = 0` (and `averageDeviation = 0`). -/
theorem perfect_route_full_compliance (pickup delivery : Coordinate) :
    calculateRouteComplianceDefault (interpolateRoute pickup delivery 20)
      pickup delivery = ⟨100, 0, 0⟩ := by
  have hlen := interpolateRoute_length pickup delivery 20
  have hne : interpolateRoute pickup delivery 20 ≠ [] := by
    intro hnil; rw [hnil] at hlen; simp at hlen
  have hmap : ∀ d ∈ (interpolateRoute pickup delivery 20).map
      (fun p => minDeviation p (interpolateRoute pickup delivery 20)), d = 0 := by
    intro d hd
    rcases List.mem_map.mp hd with ⟨q, hq, rfl⟩
    exact minDeviation_eq_zero hq (by omega)
  unfold calculateRouteComplianceDefault
  rw [calculateRouteCompliance_eq _ _ _ _ hne]
  have hcount : ((interpolateRoute pickup delivery 20).map
      (fun p => minDeviation p (interpolateRoute pickup delivery 20))).countP
      (fun d => decide (d ≤ (500:ℝ))) =
      ((interpolateRoute pickup delivery 20).map
      (fun p => minDeviation p (interpolateRoute pickup delivery 20))).length := by
    rw [List.countP_eq_length]
    intro d hd
    rw [hmap d hd]
    simp
  simp only [ComplianceResult.mk.injEq]
  refine ⟨?_, ?_, ?_⟩
  · rw [hcount, List.length_map, hlen]
    have h1 : ((21:ℕ):ℝ) / ((21:ℕ):ℝ) * 100 * 10 = ((1000:ℤ):ℝ) := by norm_num
    rw [h1, jsRound_intCast]
    norm_num
  · rw [foldl_max_zero hmap, jsRound_zero]
  · rw [List.sum_eq_zero hmap, zero_div, jsRound_zero]

/-- C5: empty input is handled with the documented defaults and never an
error: `calculateRouteCompliance` on an empty `actualPath` returns
`{100, 0, 0}`, and `detectUnscheduledStops` on a track with fewer than two
samples returns the empty list. -/
theorem empty_input_defaults (pickup delivery : Coordinate) (tol : ℝ)
    (track : List GpsSample) (dlat dlng : Option ℝ) (stm dtm : ℝ)
    (h : track.length < 2) :
    calculateRouteCompliance [] pickup delivery tol = ⟨100, 0, 0⟩ ∧
    detectUnscheduledStops track dlat dlng stm dtm = [] := by
  refine ⟨calculateRouteCompliance_nil pickup delivery tol, ?_⟩
  unfold detectUnscheduledStops
  rw [if_pos h]

/-- Witness for C5 at the concrete inputs `pickup = (0,0)`,
`delivery = (1,1)`, default tolerance, and a one-sample track. -/
theorem empty_input_defaults_witness :
    calculateRouteCompliance [] ⟨0, 0⟩ ⟨1, 1⟩ 500 = ⟨100, 0, 0⟩ ∧
    detectUnscheduledStops [⟨0, 0, 0⟩] none none 10 100 = [] :=
  empty_input_defaults ⟨0, 0⟩ ⟨1, 1⟩ 500 [⟨0, 0, 0⟩] none none 10 100 (by simp)

/-- C7: for all coordinates and every `numPoints ≥ 1`, `interpolateRoute`
returns exactly `numPoints + 1` coordinates, the first equal to `start`
and the last equal to `endP` exactly; being a pure function of its
arguments, it is deterministic by construction. -/
theorem interpolateRoute_endpoints_count (start endP : Coordinate) (n : ℕ)
    (h : 1 ≤ n) :
    (interpolateRoute start endP n).length = n + 1 ∧
    (interpolateRoute start endP n).head? = some start ∧
    (interpolateRoute start endP n).getLast? = some endP :=
  ⟨interpolateRoute_length start endP n, interpolateRoute_head start endP n,
    interpolateRoute_getLast start endP n h⟩

/-- Witness for C7 at `start = (0,0)`, `endP = (1,2)`, `numPoints = 5`. -/
theorem interpolateRoute_endpoints_count_witness :
    (interpolateRoute ⟨0, 0⟩ ⟨1, 2⟩ 5).length = 5 + 1 ∧
    (interpolateRoute ⟨0, 0⟩ ⟨1, 2⟩ 5).head? = some ⟨0, 0⟩ ∧
    (interpolateRoute ⟨0, 0⟩ ⟨1, 2⟩ 5).getLast? = some ⟨1, 2⟩ :=
  interpolateRoute_endpoints_count ⟨0, 0⟩ ⟨1, 2⟩ 5 (by norm_num)

/-- C8: the haversine distance is symmetric and zero on the diagonal. -/
theorem haversine_symm_and_self (a b : Coordinate) :
    haversineDistance a b = haversineDistance b a ∧ haversineDistance a a = 0 :=
  ⟨haversineDistance_comm a b, haversineDistance_self a⟩

/-- C9: on a zero-length segment `pointToLineSegmentDistance` falls back to
the haversine distance to the segment start (the function is total, so it
never raises), and for a non-degenerate segment the projection parameter
is clamped to `[0, 1]` and the distance is taken to the projection point
at that clamped parameter, which therefore lies on the segment. -/
theorem segment_distance_degenerate_and_clamped (p s e : Coordinate)
    (h : Real.sqrt ((e.lat - s.lat) * (e.lat - s.lat) +
        (e.lng - s.lng) * (e.lng - s.lng)) ≠ 0) :
    pointToLineSegmentDistance p s s = haversineDistance p s ∧
    0 ≤ segmentParam p s e ∧ segmentParam p s e ≤ 1 ∧
    pointToLineSegmentDistance p s e =
      haversineDistance p
        ⟨s.lat + segmentParam p s e * (e.lat - s.lat),
         s.lng + segmentParam p s e * (e.lng - s.lng)⟩ := by
  refine ⟨?_, ?_, ?_, ?_⟩
  · simp only [pointToLineSegmentDistance]
    have hz : Real.sqrt ((s.lat - s.lat) * (s.lat - s.lat) +
        (s.lng - s.lng) * (s.lng - s.lng)) = 0 := by
      simp
    rw [if_pos hz]
  · simp only [segmentParam]
    exact le_max_left _ _
  · simp only [segmentParam]
    exact max_le zero_le_one (min_le_left _ _)
  · simp only [pointToLineSegmentDistance]
    rw [if_neg h]

/-- Witness for C9 at the segment from `(0,0)` to `(0,1)` and the point
`(1,1)`. -/
theorem segment_distance_degenerate_and_clamped_witness :
    pointToLineSegmentDistance ⟨1, 1⟩ ⟨0, 0⟩ ⟨0, 0⟩ = haversineDistance ⟨1, 1⟩ ⟨0, 0⟩ ∧
    0 ≤ segmentParam ⟨1, 1⟩ ⟨0, 0⟩ ⟨0, 1⟩ ∧ segmentParam ⟨1, 1⟩ ⟨0, 0⟩ ⟨0, 1⟩ ≤ 1 ∧
    pointToLineSegmentDistance ⟨1, 1⟩ ⟨0, 0⟩ ⟨0, 1⟩ =
      haversineDistance ⟨1, 1⟩
        ⟨0 + segmentParam ⟨1, 1⟩ ⟨0, 0⟩ ⟨0, 1⟩ * (0 - 0),
         0 + segmentParam ⟨1, 1⟩ ⟨0, 0⟩ ⟨0, 1⟩ * (1 - 0)⟩ :=
  segment_distance_degenerate_and_clamped ⟨1, 1⟩ ⟨0, 0⟩ ⟨0, 1⟩ (by
    have h1 : (((0:ℝ) - 0) * ((0:ℝ) - 0) + ((1:ℝ) - 0) * ((1:ℝ) - 0)) = 1 := by norm_num
    simp only [h1, Real.sqrt_one]
    norm_num)

theorem atan2_sqrt_sin (x : ℝ) (h0 : 0 ≤ x) (h1 : x < Real.pi / 2) :
    atan2 (Real.sqrt (Real.sin x * Real.sin x))
      (Real.sqrt (1 - Real.sin x * Real.sin x)) = x := by
  have hpi := Real.pi_pos
  have hsin : 0 ≤ Real.sin x :=
    Real.sin_nonneg_of_nonneg_of_le_pi h0 (by linarith)
  have hcos : 0 < Real.cos x :=
    Real.cos_pos_of_mem_Ioo ⟨by linarith, h1⟩
  have hs : Real.sqrt (Real.sin x * Real.sin x) = Real.sin x :=
    Real.sqrt_mul_self hsin
  have hc2 : 1 - Real.sin x * Real.sin x = Real.cos x * Real.cos x := by
    have h := Real.sin_sq_add_cos_sq x
    rw [pow_two, pow_two] at h
    linarith
  have hc : Real.sqrt (1 - Real.sin x * Real.sin x) = Real.cos x := by
    rw [hc2]; exact Real.sqrt_mul_self hcos.le
  rw [hs, hc]
  unfold atan2
  rw [if_pos hcos, ← Real.tan_eq_sin_div_cos]
  exact Real.arctan_tan (by linarith) h1

theorem atan2_sqrt_sin_sq (x : ℝ) (h0 : 0 ≤ x) (h1 : x < Real.pi / 2) :
    atan2 (Real.sqrt (Real.sin x ^ 2)) (Real.sqrt (1 - Real.sin x ^ 2)) = x := by
  rw [pow_two]
  exact atan2_sqrt_sin x h0 h1

theorem haversineDistance_equator (l1 l2 : ℝ) (h0 : l1 ≤ l2) (h1 : l2 - l1 < 180) :
    haversineDistance ⟨0, l1⟩ ⟨0, l2⟩ = 6371e3 * ((l2 - l1) * (Real.pi / 180)) := by
  have hpi := Real.pi_pos
  have hd : 0 ≤ l2 - l1 := by linarith
  have hx0 : 0 ≤ (l2 - l1) * (Real.pi / 180) / 2 :=
    div_nonneg (mul_nonneg hd (by positivity)) (by norm_num)
  have hx1 : (l2 - l1) * (Real.pi / 180) / 2 < Real.pi / 2 := by nlinarith
  have hkey := atan2_sqrt_sin ((l2 - l1) * (Real.pi / 180) / 2) hx0 hx1
  simp only [haversineDistance, toRadians, sub_self, zero_mul, zero_div,
    Real.sin_zero, mul_zero, zero_add, Real.cos_zero, one_mul]
  rw [hkey]
  ring

theorem calculateDistance_self (la ln : ℝ) : calculateDistance la ln la ln = 0 := by
  have hz : ((0:ℝ)) ^ 2 = 0 := by norm_num
  simp only [calculateDistance, sub_self, zero_mul, zero_div, Real.sin_zero, hz,
    mul_zero, zero_add, add_zero, Real.sqrt_zero, sub_zero, Real.sqrt_one,
    atan2_zero_one]

theorem calculateDistance_comm (la1 ln1 la2 ln2 : ℝ) :
    calculateDistance la1 ln1 la2 ln2 = calculateDistance la2 ln2 la1 ln1 := by
  simp only [calculateDistance]
  have h1 : (la1 - la2) * (Real.pi / 180) = -((la2 - la1) * (Real.pi / 180)) := by ring
  have h2 : (ln1 - ln2) * (Real.pi / 180) = -((ln2 - ln1) * (Real.pi / 180)) := by ring
  rw [h1, h2]
  simp only [neg_div, Real.sin_neg, neg_sq]
  ring_nf

theorem calculateDistance_equator (ln1 ln2 : ℝ) (h0 : ln1 ≤ ln2) (h1 : ln2 - ln1 < 180) :
    calculateDistance 0 ln1 0 ln2 = 6371e3 * ((ln2 - ln1) * (Real.pi / 180)) := by
  have hpi := Real.pi_pos
  have hd : 0 ≤ ln2 - ln1 := by linarith
  have hx0 : 0 ≤ (ln2 - ln1) * (Real.pi / 180) / 2 :=
    div_nonneg (mul_nonneg hd (by positivity)) (by norm_num)
  have hx1 : (ln2 - ln1) * (Real.pi / 180) / 2 < Real.pi / 2 := by nlinarith
  have hkey := atan2_sqrt_sin_sq ((ln2 - ln1) * (Real.pi / 180) / 2) hx0 hx1
  have hz : ((0:ℝ)) ^ 2 = 0 := by norm_num
  simp only [calculateDistance, sub_self, zero_mul, zero_div, Real.sin_zero, hz,
    Real.cos_zero, one_mul, zero_add]
  rw [hkey]
  ring

theorem calculateDistance_meridian (la1 la2 ln : ℝ) (h0 : la1 ≤ la2) (h1 : la1 - la2 > -180) :
    calculateDistance la1 ln la2 ln = 6371e3 * ((la2 - la1) * (Real.pi / 180)) := by
  have hpi := Real.pi_pos
  have hd : 0 ≤ la2 - la1 := by linarith
  have hx0 : 0 ≤ (la2 - la1) * (Real.pi / 180) / 2 :=
    div_nonneg (mul_nonneg hd (by positivity)) (by norm_num)
  have hx1 : (la2 - la1) * (Real.pi / 180) / 2 < Real.pi / 2 := by nlinarith
  have hkey := atan2_sqrt_sin_sq ((la2 - la1) * (Real.pi / 180) / 2) hx0 hx1
  have hz : ((0:ℝ)) ^ 2 = 0 := by norm_num
  simp only [calculateDistance, sub_self, zero_mul, zero_div, Real.sin_zero, hz,
    mul_zero, add_zero]
  rw [hkey]
  ring

open Classical in
theorem detect_run4_eval (la ln : ℝ) (dlat dlng : Option ℝ) :
    detectUnscheduledStops (run4 la ln) dlat dlng 10 100 =
      if isAtDestination ⟨la, ln, 0⟩ dlat dlng then [] else [⟨la, ln, 0, 15⟩] := by
  have hd : calculateDistance la ln la ln < 100 := by
    rw [calculateDistance_self]; norm_num
  have hjr : jsRound (((900000:ℝ) - 0) / 60000) = 15 := by
    have h : ((900000:ℝ) - 0) / 60000 = ((15:ℤ):ℝ) := by norm_num
    rw [h, jsRound_intCast]
  have hdur : ((900000:ℝ) - 0) / 60000 ≥ 10 := by norm_num
  unfold detectUnscheduledStops run4
  rw [if_neg (by norm_num)]
  simp only [detectGo, flushRun, hd, if_true, hdur, hjr, List.getLast?, List.getLast,
    ite_not, List.nil_append, List.cons_append, Option.getD_some, List.length_cons,
    List.length_nil]
  norm_num

/-- C6: a 15-minute stationary run (four samples five minutes apart at one
point) whose location is within 200 m of a truthy supplied destination
produces zero unscheduled stops, while the same run with the destination
farther away (in particular 1 km away) produces exactly one stop with
duration 15 minutes, carrying the run's first sample's coordinates and
timestamp. -/
theorem destination_exclusion (la ln a b : ℝ) (ha : a ≠ 0) (hb : b ≠ 0) :
    (calculateDistance la ln a b < 200 →
      detectUnscheduledStops (run4 la ln) (some a) (some b) 10 100 = []) ∧
    (¬ calculateDistance la ln a b < 200 →
      detectUnscheduledStops (run4 la ln) (some a) (some b) 10 100 = [⟨la, ln, 0, 15⟩]) := by
  have hev := detect_run4_eval la ln (some a) (some b)
  constructor
  · intro hlt
    rw [hev, if_pos (show isAtDestination ⟨la, ln, 0⟩ (some a) (some b) from ⟨ha, hb, hlt⟩)]
  · intro hge
    rw [hev, if_neg (fun hdest => hge hdest.2.2)]

/-- Witness for C6: the run at `(1,1)` with destination `(1,1)` (distance
0 < 200 m) produces no stops; with destination `(1.009, 1)` (about 1 km
away, shown by the 900–1100 m bounds) it produces exactly one 15-minute
stop at the first sample. -/
theorem destination_exclusion_witness :
    detectUnscheduledStops (run4 1 1) (some 1) (some 1) 10 100 = [] ∧
    detectUnscheduledStops (run4 1 1) (some 1.009) (some 1) 10 100 = [⟨1, 1, 0, 15⟩] ∧
    900 < calculateDistance 1 1 1.009 1 ∧ calculateDistance 1 1 1.009 1 < 1100 := by
  have hmer : calculateDistance 1 1 1.009 1 =
      6371e3 * (((1.009:ℝ) - 1) * (Real.pi / 180)) :=
    calculateDistance_meridian 1 1.009 1 (by norm_num) (by norm_num)
  have h900 : (900:ℝ) < calculateDistance 1 1 1.009 1 := by
    rw [hmer]; nlinarith [Real.pi_gt_d6]
  have h1100 : calculateDistance 1 1 1.009 1 < 1100 := by
    rw [hmer]; nlinarith [Real.pi_lt_d2]
  refine ⟨?_, ?_, h900, h1100⟩
  · exact (destination_exclusion 1 1 1 1 one_ne_zero one_ne_zero).1
      (by rw [calculateDistance_self]; norm_num)
  · exact (destination_exclusion 1 1 1.009 1 (by norm_num) one_ne_zero).2
      (fun hlt => by linarith)

theorem detect_jumpTrack_eval :
    detectUnscheduledStops jumpTrack none none 10 100 = [⟨0, 0, 0, 10⟩] := by
  have hd : calculateDistance 0 0 0 0 < 100 := by
    rw [calculateDistance_self]; norm_num
  have heq : calculateDistance 0 0 0 0.009 =
      6371e3 * (((0.009:ℝ) - 0) * (Real.pi / 180)) :=
    calculateDistance_equator 0 0.009 (by norm_num) (by norm_num)
  have hjump : ¬ calculateDistance 0 0 0 0.009 < 100 := by
    rw [heq]; intro h; nlinarith [Real.pi_gt_d6]
  have hjr : jsRound (((600000:ℝ) - 0) / 60000) = 10 := by
    have h : ((600000:ℝ) - 0) / 60000 = ((10:ℤ):ℝ) := by norm_num
    rw [h, jsRound_intCast]
  have hdur : ((600000:ℝ) - 0) / 60000 ≥ 10 := by norm_num
  unfold detectUnscheduledStops jumpTrack
  rw [if_neg (by norm_num)]
  simp only [detectGo, flushRun, hd, hjump, hdur, hjr, if_true, if_false,
    List.getLast?, List.getLast, ite_not, List.nil_append, List.cons_append,
    Option.getD_some, List.length_cons, List.length_nil, isAtDestination]
  norm_num

theorem detect_shortTrack_eval :
    detectUnscheduledStops shortTrack none none 10 100 = [] := by
  have hd : calculateDistance 0 0 0 0 < 100 := by
    rw [calculateDistance_self]; norm_num
  have heq : calculateDistance 0 0 0 0.009 =
      6371e3 * (((0.009:ℝ) - 0) * (Real.pi / 180)) :=
    calculateDistance_equator 0 0.009 (by norm_num) (by norm_num)
  have hjump : ¬ calculateDistance 0 0 0 0.009 < 100 := by
    rw [heq]; intro h; nlinarith [Real.pi_gt_d6]
  have hdur : ¬ ((480000:ℝ) - 0) / 60000 ≥ 10 := by norm_num
  unfold detectUnscheduledStops shortTrack
  rw [if_neg (by norm_num)]
  simp only [detectGo, flushRun, hd, hjump, hdur, if_true, if_false,
    List.getLast?, List.getLast, ite_not, List.nil_append, List.cons_append,
    Option.getD_some, List.length_cons, List.length_nil, isAtDestination]
  norm_num

/-- C1 counterexample: on the track of three samples five minutes apart at
one point (pairwise distance 0, hence within 50 m) followed by a jump of
about 1 km (bounded between 900 and 1100 m), `detectUnscheduledStops` with
a null destination and thresholds `(10, 100)` does NOT return the empty
list: the run's first-to-last duration is exactly the 10-minute threshold
and the source's `duration >= stopThresholdMinutes` comparison is
inclusive, so a stop is emitted. -/
theorem threshold_boundary_stop_counterexample :
    calculateDistance 0 0 0 0 = 0 ∧
    900 < calculateDistance 0 0 0 0.009 ∧ calculateDistance 0 0 0 0.009 < 1100 ∧
    detectUnscheduledStops jumpTrack none none 10 100 ≠ [] := by
  have heq : calculateDistance 0 0 0 0.009 =
      6371e3 * (((0.009:ℝ) - 0) * (Real.pi / 180)) :=
    calculateDistance_equator 0 0.009 (by norm_num) (by norm_num)
  refine ⟨calculateDistance_self 0 0, ?_, ?_, ?_⟩
  · rw [heq]; nlinarith [Real.pi_gt_d6]
  · rw [heq]; nlinarith [Real.pi_lt_d2]
  · rw [detect_jumpTrack_eval]; simp

/-- C1 (amended): on that track the detector returns exactly one stop, at
the run's first sample with duration 10 minutes, because the duration
threshold comparison is inclusive (`>=`); a run strictly below the
threshold (the same shape spanning 8 minutes) produces the empty list. -/
theorem threshold_boundary_stop_amended :
    detectUnscheduledStops jumpTrack none none 10 100 = [⟨0, 0, 0, 10⟩] ∧
    detectUnscheduledStops shortTrack none none 10 100 = [] :=
  ⟨detect_jumpTrack_eval, detect_shortTrack_eval⟩

theorem isAtDestination_zero {s : GpsSample} {dlat dlng : Option ℝ}
    (h : dlat = some 0 ∨ dlng = some 0) : ¬ isAtDestination s dlat dlng := by
  intro hdest
  rcases h with h | h <;> subst h
  · cases dlng with
    | none => exact hdest
    | some b => exact hdest.1 rfl
  · cases dlat with
    | none => exact hdest
    | some a => exact hdest.2.1 rfl

theorem isAtDestination_none (s : GpsSample) : ¬ isAtDestination s none none :=
  fun h => h

theorem flushRun_not_dest {d1 d2 d1' d2' : Option ℝ} {stm : ℝ}
    (h : ∀ s, ¬ isAtDestination s d1 d2) (h' : ∀ s, ¬ isAtDestination s d1' d2') :
    ∀ ss sp stops, flushRun d1 d2 stm ss sp stops = flushRun d1' d2' stm ss sp stops := by
  intro ss sp stops
  cases ss with
  | none => rfl
  | some s =>
    simp only [flushRun]
    by_cases hlen : 1 < sp.length
    · rw [if_pos hlen, if_pos hlen]
      by_cases hdur : ((sp.getLast?.getD s).timestamp - s.timestamp) / 60000 ≥ stm
      · rw [if_pos hdur, if_pos hdur, if_pos (h s), if_pos (h' s)]
      · rw [if_neg hdur, if_neg hdur]
    · rw [if_neg hlen, if_neg hlen]

theorem detectGo_not_dest {d1 d2 d1' d2' : Option ℝ} {stm dtm : ℝ}
    (h : ∀ s, ¬ isAtDestination s d1 d2) (h' : ∀ s, ¬ isAtDestination s d1' d2') :
    ∀ (rest : List GpsSample) (prev : GpsSample) (st : DetectState),
      detectGo d1 d2 stm dtm prev rest st = detectGo d1' d2' stm dtm prev rest st := by
  intro rest
  induction rest with
  | nil => intro prev st; rfl
  | cons curr rest' ih =>
    intro prev st
    simp only [detectGo]
    by_cases hd : calculateDistance prev.latitude prev.longitude
        curr.latitude curr.longitude < dtm
    · rw [if_pos hd, if_pos hd]
      cases hss : st.stopStart with
      | none => exact ih curr _
      | some s => exact ih curr _
    · rw [if_neg hd, if_neg hd, flushRun_not_dest h h']
      exact ih curr _

/-- C10: a supplied destination whose latitude or longitude is exactly `0`
is falsy in JavaScript, so `detectUnscheduledStops` never applies the
destination exclusion for it and behaves exactly as with an absent
destination; in particular a qualifying stationary run within 200 m of
such a destination is still reported. -/
theorem zero_destination_treated_as_absent (points : List GpsSample)
    (dlat dlng : Option ℝ) (stm dtm : ℝ) (h : dlat = some 0 ∨ dlng = some 0) :
    detectUnscheduledStops points dlat dlng stm dtm =
      detectUnscheduledStops points none none stm dtm := by
  have hnd : ∀ s, ¬ isAtDestination s dlat dlng := fun _ => isAtDestination_zero h
  have hnn : ∀ s : GpsSample, ¬ isAtDestination s none none := isAtDestination_none
  unfold detectUnscheduledStops
  by_cases hlen : points.length < 2
  · rw [if_pos hlen, if_pos hlen]
  · rw [if_neg hlen, if_neg hlen]
    cases points with
    | nil => rfl
    | cons p rest =>
      simp only [detectGo_not_dest hnd hnn, flushRun_not_dest hnd hnn]

/-- Witness for C10: a 15-minute stationary run at `(0.0005, 8)` lies about
56 m (< 200 m) from the destination `(0, 8)`, whose latitude is the falsy
value 0, and the run is still reported as a stop. -/
theorem zero_destination_treated_as_absent_witness :
    detectUnscheduledStops (run4 0.0005 8) (some 0) (some 8) 10 100 =
      [⟨0.0005, 8, 0, 15⟩] ∧
    calculateDistance 0.0005 8 0 8 < 200 := by
  constructor
  · rw [zero_destination_treated_as_absent (run4 0.0005 8) (some 0) (some 8) 10 100
      (Or.inl rfl)]
    rw [detect_run4_eval, if_neg (isAtDestination_none _)]
  · have hcomm := calculateDistance_comm 0.0005 8 0 8
    have hmer : calculateDistance 0 8 0.0005 8 =
        6371e3 * (((0.0005:ℝ) - 0) * (Real.pi / 180)) :=
      calculateDistance_meridian 0 0.0005 8 (by norm_num) (by norm_num)
    rw [hcomm, hmer]
    nlinarith [Real.pi_lt_d2]

theorem interpolateRoute_const (a : Coordinate) (n : ℕ) :
    interpolateRoute a a n = List.replicate (n + 1) a := by
  unfold interpolateRoute
  rw [List.eq_replicate_iff]
  constructor
  · simp
  · intro b hb
    rcases List.mem_map.mp hb with ⟨i, _, rfl⟩
    cases a
    simp

theorem pointToLineSegmentDistance_degenerate (p a : Coordinate) :
    pointToLineSegmentDistance p a a = haversineDistance p a := by
  simp only [pointToLineSegmentDistance]
  rw [if_pos (by simp)]

theorem segmentDistances_replicate (p a : Coordinate) :
    ∀ n, segmentDistances p (List.replicate (n + 1) a) =
      List.replicate n (pointToLineSegmentDistance p a a) := by
  intro n
  induction n with
  | zero => rfl
  | succ k ih =>
    have h : segmentDistances p (List.replicate (k + 1 + 1) a) =
        pointToLineSegmentDistance p a a ::
          segmentDistances p (List.replicate (k + 1) a) := rfl
    rw [h, ih, List.replicate_succ]

theorem foldl_min_replicate (v : ℝ) : ∀ n, (List.replicate n v).foldl min v = v := by
  intro n
  induction n with
  | zero => rfl
  | succ k ih => rw [List.replicate_succ, List.foldl_cons, min_self]; exact ih

theorem minDeviation_const_route (p a : Coordinate) (n : ℕ) (h : 1 ≤ n) :
    minDeviation p (interpolateRoute a a n) = haversineDistance p a := by
  unfold minDeviation
  rw [interpolateRoute_const, segmentDistances_replicate,
    pointToLineSegmentDistance_degenerate]
  cases n with
  | zero => omega
  | succ k =>
    rw [List.replicate_succ]
    exact foldl_min_replicate (haversineDistance p a) k

/-- C4: a point whose minimum distance to the planned polyline is exactly
`toleranceMeters` is counted as compliant by `calculateRouteCompliance`
(the comparison is `<=`), while a point whose minimum distance is strictly
greater is not: on the corresponding one-point paths the compliance
percentages are 100 and 0 respectively. -/
theorem tolerance_boundary (p q pickup delivery : Coordinate) (tol : ℝ)
    (hp : minDeviation p (interpolateRoute pickup delivery 20) = tol)
    (hq : tol < minDeviation q (interpolateRoute pickup delivery 20)) :
    (calculateRouteCompliance [p] pickup delivery tol).compliancePercent = 100 ∧
    (calculateRouteCompliance [q] pickup delivery tol).compliancePercent = 0 := by
  constructor
  · rw [calculateRouteCompliance_eq [p] pickup delivery tol (by simp)]
    simp only [List.map_cons, List.map_nil, List.countP_cons, List.countP_nil,
      List.length_cons, List.length_nil, hp]
    rw [if_pos (by simp)]
    have h1 : ((0 + 1 : ℕ) : ℝ) / ((0 + 1 : ℕ) : ℝ) * 100 * 10 = ((1000:ℤ):ℝ) := by
      norm_num
    rw [h1, jsRound_intCast]
    norm_num
  · rw [calculateRouteCompliance_eq [q] pickup delivery tol (by simp)]
    simp only [List.map_cons, List.map_nil, List.countP_cons, List.countP_nil,
      List.length_cons, List.length_nil]
    rw [if_neg (by simp; linarith)]
    have h1 : ((0 + 0 : ℕ) : ℝ) / ((0 + 1 : ℕ) : ℝ) * 100 * 10 = ((0:ℤ):ℝ) := by
      norm_num
    rw [h1, jsRound_intCast]
    norm_num

/-- Witness for C4: with a degenerate planned route at `(0,0)` the minimum
deviation of `(0,1)` is exactly `6371e3 * (π/180)` meters; taking that as
the tolerance, the path `[(0,1)]` is 100% compliant and the strictly
farther path `[(0,2)]` is 0% compliant. -/
theorem tolerance_boundary_witness :
    (calculateRouteCompliance [⟨0, 1⟩] ⟨0, 0⟩ ⟨0, 0⟩
        (6371e3 * (((1:ℝ) - 0) * (Real.pi / 180)))).compliancePercent = 100 ∧
    (calculateRouteCompliance [⟨0, 2⟩] ⟨0, 0⟩ ⟨0, 0⟩
        (6371e3 * (((1:ℝ) - 0) * (Real.pi / 180)))).compliancePercent = 0 := by
  have h1 : minDeviation ⟨0, 1⟩ (interpolateRoute ⟨0, 0⟩ ⟨0, 0⟩ 20) =
      6371e3 * (((1:ℝ) - 0) * (Real.pi / 180)) := by
    rw [minDeviation_const_route _ _ 20 (by norm_num), haversineDistance_comm]
    exact haversineDistance_equator 0 1 (by norm_num) (by norm_num)
  have h2 : minDeviation ⟨0, 2⟩ (interpolateRoute ⟨0, 0⟩ ⟨0, 0⟩ 20) =
      6371e3 * (((2:ℝ) - 0) * (Real.pi / 180)) := by
    rw [minDeviation_const_route _ _ 20 (by norm_num), haversineDistance_comm]
    exact haversineDistance_equator 0 2 (by norm_num) (by norm_num)
  exact tolerance_boundary ⟨0, 1⟩ ⟨0, 2⟩ ⟨0, 0⟩ ⟨0, 0⟩ _ h1
    (by rw [h2]; nlinarith [Real.pi_pos])

/-- C2 counterexample: the server-side planned-route builder
`interpolateRoute` defaults its `numPoints` parameter to `10`, so calling
it without an explicit `numPoints` produces 11 waypoints, not 21. -/
theorem planned_route_default_counterexample :
    (interpolateRouteDefault ⟨0, 0⟩ ⟨1, 1⟩).length = 11 ∧
    (interpolateRouteDefault ⟨0, 0⟩ ⟨1, 1⟩).length ≠ 21 := by
  have h : (interpolateRouteDefault ⟨0, 0⟩ ⟨1, 1⟩).length = 11 := by
    unfold interpolateRouteDefault interpolateRouteDefaultNumPoints
    rw [interpolateRoute_length]
  exact ⟨h, by rw [h]; norm_num⟩

/-- C2 (amended): the server `interpolateRoute` defaults `numPoints` to 10
and so yields 11 waypoints when called without it, while the client
`interpolatePlannedRoute` defaults to 20 and yields 21 waypoints (a
straight segment subdivided into 20 intervals); only the client builder
matches the claimed default of 20. -/
theorem planned_route_default_lengths (s e : Coordinate) (a b c d : ℝ) :
    (interpolateRouteDefault s e).length = 11 ∧
    (interpolatePlannedRouteDefault a b c d).length = 21 := by
  constructor
  · unfold interpolateRouteDefault interpolateRouteDefaultNumPoints
    rw [interpolateRoute_length]
  · unfold interpolatePlannedRouteDefault interpolatePlannedRoute
      interpolatePlannedRouteDefaultNumPoints
    simp

end FleetGeo
